import Mathlib

/-!
# Verification of the yalebook PDF flipbook viewer core

A shallow embedding of the page rendering & pagination cache coordinator of
`src/app.js`.  Pixel quantities are modelled as rationals (`ℚ`), JavaScript
`Math.floor` as `Int.floor`, the `Map` render cache as an association list,
and the asynchronous document decoder as a deterministic oracle
`ℕ → Option (ℚ × ℚ)` returning a page's native viewport (or `none` on
decode/rasterize failure).  Stateful handlers become explicit functions on an
`AppState` record.
-/

namespace Yalebook

/-! ## Resolution planner (`initFlipbook`, src/app.js lines 388-445)

The page-dimension computation: the available viewport is clamped from below
(`maxHeight = max(availableHeight, 400)`, `maxWidth = max(availableWidth, 300)`),
then the page is fitted by height first (`pageHeight = maxHeight`,
`pageWidth = pageHeight * aspectRatio`); if the resulting width (doubled in
double-page mode) exceeds `maxWidth`, width becomes the binding constraint
(`pageWidth = maxWidth / 2` resp. `maxWidth`) and height is re-derived from the
aspect ratio.  Both outputs are floored.  The source's local variables are
inlined here. -/

def planPageDims (availableWidth availableHeight aspectRatio : ℚ)
    (isDoublePageMode : Bool) : Int × Int :=
  if isDoublePageMode then
    if max availableHeight 400 * aspectRatio * 2 > max availableWidth 300 then
      (⌊max availableWidth 300 / 2⌋, ⌊max availableWidth 300 / 2 / aspectRatio⌋)
    else
      (⌊max availableHeight 400 * aspectRatio⌋, ⌊(max availableHeight 400 : ℚ)⌋)
  else
    if max availableHeight 400 * aspectRatio > max availableWidth 300 then
      (⌊(max availableWidth 300 : ℚ)⌋, ⌊max availableWidth 300 / aspectRatio⌋)
    else
      (⌊max availableHeight 400 * aspectRatio⌋, ⌊(max availableHeight 400 : ℚ)⌋)

/-! ## Render cache and page renderer (src/app.js lines 296-382)

The source keys its `Map` by the template string `` `${pageNum}-${width}-${height}` ``,
which for the nonnegative quantities in play is in bijection with the triple
itself, so the cache is modelled as an association list over the triple.
A rendered artifact (an HTML canvas) carries its backing-store resolution
(`width`/`height`), its CSS display size (`styleWidth`/`styleHeight`, unset on
the error placeholder), and whether it is the "Page could not be loaded"
placeholder. -/

abbrev CacheKey := ℕ × ℚ × ℚ

structure Canvas where
  width : ℚ
  height : ℚ
  styleWidth : Option ℚ
  styleHeight : Option ℚ
  errorLabel : Bool
deriving DecidableEq, Repr

abbrev CacheMap := List (CacheKey × Canvas)

def cacheGet (cache : CacheMap) (k : CacheKey) : Option Canvas :=
  (cache.find? (fun e => decide (e.1 = k))).map (fun e => e.2)

/-- `createErrorPage(width, height)` (lines 356-368): a canvas at exactly the
target dimensions, flat-filled, labelled "Page could not be loaded"; no CSS
display size is assigned. -/
def createErrorPage (width height : ℚ) : Canvas :=
  { width := width, height := height, styleWidth := none, styleHeight := none,
    errorLabel := true }

/-- `renderPage(pageNum, width, height)` (lines 296-354) over a decoder oracle
`decode` giving the page's native viewport (`none` when any step of the `try`
block throws).  Returns the artifact, the updated cache, and whether the
decoder was invoked (`false` exactly on a cache hit).  On success the canvas
backing store is `2 * fitScale` times the native viewport
(`fitScale = min (width/nativeW) (height/nativeH)`), the CSS size the
fit-scaled native viewport, and the artifact is cached; on failure the error
placeholder is returned *without* being cached. -/
def renderPage (decode : ℕ → Option (ℚ × ℚ)) (cache : CacheMap)
    (pageNum : ℕ) (width height : ℚ) : Canvas × CacheMap × Bool :=
  match cacheGet cache (pageNum, width, height) with
  | some c => (c, cache, false)
  | none =>
    match decode pageNum with
    | some nv =>
        let fitScale := min (width / nv.1) (height / nv.2)
        let canvas : Canvas :=
          { width := 2 * fitScale * nv.1, height := 2 * fitScale * nv.2,
            styleWidth := some (nv.1 * fitScale),
            styleHeight := some (nv.2 * fitScale), errorLabel := false }
        (canvas, ((pageNum, width, height), canvas) :: cache, true)
    | none => (createErrorPage width height, cache, true)

/-- `extractAllPageTexts()` (lines 370-382) over a text-extraction oracle:
for every page `i` from 1 to `total`, stores the lowercased joined text on
success and the empty string when extraction throws.  The resulting `Map` is
modelled as the list of its entries in insertion order. -/
def extractAllPageTexts (getText : ℕ → Option String) (total : ℕ) :
    List (ℕ × String) :=
  (List.range total).map (fun j =>
    match getText (j + 1) with
    | some t => (j + 1, t.toLower)
    | none => (j + 1, ""))

/-- One `renderPageContent`/`renderPage` step per page of the given list,
threading the cache (the source awaits all of them jointly; the single-threaded
interleaving is modelled sequentially). -/
def preRenderPages (decode : ℕ → Option (ℚ × ℚ)) (width height : ℚ) :
    List ℕ → CacheMap → List Canvas × CacheMap
  | [], cache => ([], cache)
  | p :: ps, cache =>
      let r := renderPage decode cache p width height
      let rest := preRenderPages decode width height ps r.2.1
      (r.1 :: rest.1, rest.2)

/-- `preRenderAllPages()` (lines 647-653): renders every page from 1 to
`total` at the current base dimensions. -/
def preRenderAllPages (decode : ℕ → Option (ℚ × ℚ)) (cache : CacheMap)
    (width height : ℚ) (total : ℕ) : List Canvas × CacheMap :=
  preRenderPages decode width height ((List.range total).map (· + 1)) cache

/-! ## Application state and handlers

The mutable `state` object (src/app.js lines 10-30), restricted to the fields
the pagination/cache coordinator reads or writes.  `hasPdfDoc`/`hasPageFlip`
model the truthiness of `state.pdfDoc`/`state.pageFlip`; `toasts` counts
`showToast` notifications; `flipsIssued` counts `pageFlip.flip` calls. -/

structure AppState where
  hasPdfDoc : Bool
  hasPageFlip : Bool
  currentPage : Int
  totalPages : ℕ
  isDoublePageMode : Bool
  isMobile : Bool
  pageCache : CacheMap
  basePageWidth : Int
  basePageHeight : Int
  searchResults : List ℕ
  currentSearchIndex : Int
  toasts : ℕ
  flipsIssued : ℕ
deriving DecidableEq, Repr

def MOBILE_BREAKPOINT : ℚ := 768

/-- `checkMobileMode()` (lines 83-102): reclassifies the device from
`window.innerWidth`, forces single-page mode when mobile, and returns whether
the device class changed. -/
def checkMobileMode (innerWidth : ℚ) (s : AppState) : AppState × Bool :=
  let wasMobile := s.isMobile
  let isMobile : Bool := innerWidth ≤ MOBILE_BREAKPOINT
  let s' : AppState :=
    if isMobile && s.isDoublePageMode then
      { s with isMobile := isMobile, isDoublePageMode := false }
    else
      { s with isMobile := isMobile }
  (s', wasMobile != isMobile)

/-- The synchronous state effect of `initFlipbook()` (lines 388-613): computes
the base page dimensions from the viewer container (`availableHeight =
clientHeight - 72`, `availableWidth = clientWidth`) via the resolution planner
and rebuilds the page-flip engine.  It does *not* touch `pageCache`; the
`renderVisiblePages` it schedules happens after its first `await` and is
modelled as subsequent `renderPage` steps. -/
def initFlipbook (viewerWidth viewerHeight aspectRatio : ℚ) (s : AppState) :
    AppState :=
  let dims := planPageDims viewerWidth (viewerHeight - 72) aspectRatio
    s.isDoublePageMode
  { s with basePageWidth := dims.1, basePageHeight := dims.2,
           hasPageFlip := true }

/-- `toggleViewMode()` (lines 1034-1057): rejected with a toast while mobile in
single-page mode; otherwise flips the mode and, when a document is loaded,
clears the render cache and reinitializes the flipbook. -/
def toggleViewMode (viewerWidth viewerHeight aspectRatio : ℚ) (s : AppState) :
    AppState :=
  if s.isMobile && !s.isDoublePageMode then
    { s with toasts := s.toasts + 1 }
  else
    let s' := { s with isDoublePageMode := !s.isDoublePageMode }
    if s'.hasPdfDoc then
      initFlipbook viewerWidth viewerHeight aspectRatio
        { s' with pageCache := [] }
    else s'

/-- `handleResize()` (lines 1213-1239): re-checks the device class; when the
class changed, clears the cache and reinitializes; otherwise reinitializes
(without clearing) only when the expected page width differs from the stored
base width by more than 50 px. -/
def handleResize (innerWidth viewerWidth viewerHeight aspectRatio : ℚ)
    (s : AppState) : AppState :=
  let r := checkMobileMode innerWidth s
  let s' := r.1
  let modeChanged := r.2
  if s'.hasPdfDoc && s'.hasPageFlip then
    if modeChanged then
      initFlipbook viewerWidth viewerHeight aspectRatio
        { s' with pageCache := [] }
    else
      let newWidth := viewerWidth - 40
      let expectedWidth := if s'.isDoublePageMode then newWidth / 2 else newWidth
      if |expectedWidth - (s'.basePageWidth : ℚ)| > 50 then
        initFlipbook viewerWidth viewerHeight aspectRatio s'
      else s'
  else s'

/-- `openNewPdf()` (lines 1263-1288): resets the session for a replacement
document — discards the document handle, render cache, search state, and the
page-flip engine. -/
def openNewPdf (s : AppState) : AppState :=
  { s with hasPdfDoc := false, pageCache := [], searchResults := [],
           currentSearchIndex := -1, currentPage := 1, hasPageFlip := false }

/-- `goToPage(pageNum)` (lines 921-927): flips only when the engine exists and
`1 ≤ pageNum ≤ totalPages`; otherwise does nothing. -/
def goToPage (s : AppState) (pageNum : Int) : AppState :=
  if s.hasPageFlip && decide (1 ≤ pageNum) &&
     decide (pageNum ≤ (s.totalPages : Int)) then
    { s with flipsIssued := s.flipsIssued + 1, currentPage := pageNum }
  else s

/-- `goToNextSearchResult()` (lines 1006-1013).  JavaScript `%` is truncated
remainder, hence `Int.tmod`; an out-of-bounds array read (impossible from the
real search flow) leaves the page untouched. -/
def goToNextSearchResult (s : AppState) : AppState :=
  if s.searchResults.length = 0 then s
  else
    let len : Int := s.searchResults.length
    let idx := Int.tmod (s.currentSearchIndex + 1) len
    let s' := { s with currentSearchIndex := idx }
    match s.searchResults[idx.toNat]? with
    | some p => goToPage s' (p : Int)
    | none => s'

/-- `goToPrevSearchResult()` (lines 1015-1022). -/
def goToPrevSearchResult (s : AppState) : AppState :=
  if s.searchResults.length = 0 then s
  else
    let len : Int := s.searchResults.length
    let idx := Int.tmod (s.currentSearchIndex - 1 + len) len
    let s' := { s with currentSearchIndex := idx }
    match s.searchResults[idx.toNat]? with
    | some p => goToPage s' (p : Int)
    | none => s'

/-- The seed `checkUrlForPdf()` (lines 215-221) computes from a location
fragment `#page=<payload>` whose payload parses as the integer `n`:
`parseInt(...) || 1` falls back to 1 exactly when the parse yields `NaN` or
`0`; for an integer payload that is `n = 0`.  No clamping is performed. -/
def seedFromFragment (n : Int) : Int :=
  if n = 0 then 1 else n

/-- `checkUrlForPdf()` state effect for a fragment with integer payload `n`. -/
def checkUrlForPdf (n : Int) (s : AppState) : AppState :=
  { s with currentPage := seedFromFragment n }

/-! ## Double-page spread pairing and the "page underneath" preview -/

/-- The preview page number `showPageUnderneath` computes (line 566):
`nextRightPageNum = currentIndex * 2 + 3`, from the engine's current 0-based
page-flip index. -/
def nextRightPageNum (currentIndex : ℕ) : ℕ :=
  currentIndex * 2 + 3

/-- Modelled from the spec (the page-flip engine is an external collaborator):
under the double-page pairing rule with a cover — spread 0 is the lone page 1,
spread `k ≥ 1` is the pair `(2k, 2k+1)` — the engine's 0-based current page
index while resting on spread `k` (the left page of the spread, as the
source's `flip`/`updateCoverState`/`renderVisiblePages` handlers all assume:
index 0 = page 1, index 1 = pages 2-3, index 3 = pages 4-5, …). -/
def spreadLeftFlipIndex (k : ℕ) : ℕ :=
  if k = 0 then 0 else 2 * k - 1

/-- The right-hand page number of spread `k` under the pairing rule
(cover `[1]`, then `(2k, 2k+1)`). -/
def rightPageOfSpread (k : ℕ) : ℕ :=
  if k = 0 then 1 else 2 * k + 1

/-! ## Concrete fixtures used by counterexamples and witnesses -/

def demoCanvas : Canvas :=
  { width := 200, height := 280, styleWidth := some 100,
    styleHeight := some 140, errorLabel := false }

/-- A desktop session with a loaded 10-page document, one cached artifact, and
base page size 400×560. -/
def demoState : AppState :=
  { hasPdfDoc := true, hasPageFlip := true, currentPage := 1, totalPages := 10,
    isDoublePageMode := false, isMobile := false,
    pageCache := [((1, 100, 140), demoCanvas)],
    basePageWidth := 400, basePageHeight := 560,
    searchResults := [], currentSearchIndex := -1, toasts := 0,
    flipsIssued := 0 }

/-- The demo session with a search for a term matching pages {3, 7, 9} just
executed (cursor at the first result). -/
def demoSearchState : AppState :=
  { demoState with searchResults := [3, 7, 9], currentSearchIndex := 0 }

end Yalebook

/-- C1 counterexample: at a 300×400 available viewport with square pages
(aspect ratio 1) in Double mode, the width constraint binds
(`pageWidth = maxWidth / 2 = 150`) and the planner returns 150×150, strictly
below the claimed 300×400 output floor. -/
theorem c1_counterexample :
    Yalebook.planPageDims 300 400 1 true = (150, 150) ∧ ¬ (300 ≤ (150 : Int)) := by
  constructor
  · norm_num [Yalebook.planPageDims]
  · decide

/-- C1 amended: the 300×400 minimums clamp the *available* viewport, not the
output: the planner returns floored integer dimensions that fit inside the
clamped box (two pages per width in Double mode, one in Single; height within
the clamped height in both modes), but the outputs themselves may fall below
300×400. -/
theorem c1_amended (aw ah ar : ℚ) (mode : Bool) (har : 0 < ar) :
    ((Yalebook.planPageDims aw ah ar true).1 : ℚ) * 2 ≤ max aw 300 ∧
    ((Yalebook.planPageDims aw ah ar false).1 : ℚ) ≤ max aw 300 ∧
    ((Yalebook.planPageDims aw ah ar mode).2 : ℚ) ≤ max ah 400 := by
  have hfl : ∀ q : ℚ, ((⌊q⌋ : ℚ)) ≤ q := fun q => Int.floor_le q
  unfold Yalebook.planPageDims
  refine ⟨?_, ?_, ?_⟩
  · simp only [if_true]
    split
    · have h1 := hfl (max aw 300 / 2)
      linarith
    · rename_i hle
      push_neg at hle
      have h1 := hfl (max ah 400 * ar)
      linarith
  · simp only [Bool.false_eq_true, if_false]
    split
    · exact hfl _
    · rename_i hle
      push_neg at hle
      exact le_trans (hfl _) hle
  · cases mode with
    | true =>
      simp only [if_true]
      split
      · rename_i hgt
        have h1 := hfl (max aw 300 / 2 / ar)
        have h2 : max aw 300 / 2 / ar ≤ max ah 400 := by
          rw [div_le_iff₀ har]
          nlinarith
        linarith
      · exact le_trans (hfl _) (le_refl _)
    | false =>
      simp only [Bool.false_eq_true, if_false]
      split
      · rename_i hgt
        have h1 := hfl (max aw 300 / ar)
        have h2 : max aw 300 / ar ≤ max ah 400 := by
          rw [div_le_iff₀ har]
          nlinarith
        linarith
      · exact hfl _

/-- Witness for `c1_amended` at a concrete input. -/
theorem c1_amended_witness :
    (0 : ℚ) < 1 ∧
    (((Yalebook.planPageDims 1000 800 1 true).1 : ℚ) * 2 ≤ max 1000 300 ∧
     ((Yalebook.planPageDims 1000 800 1 false).1 : ℚ) ≤ max 1000 300 ∧
     ((Yalebook.planPageDims 1000 800 1 true).2 : ℚ) ≤ max 800 400) :=
  ⟨by norm_num, c1_amended 1000 800 1 true (by norm_num)⟩

/-- Looking up the key just inserted at the head of the cache hits it. -/
theorem cacheGet_cons_self (cache : Yalebook.CacheMap) (k : Yalebook.CacheKey)
    (v : Yalebook.Canvas) : Yalebook.cacheGet ((k, v) :: cache) k = some v := by
  simp [Yalebook.cacheGet]

/-- A head entry with a different key does not affect a lookup. -/
theorem cacheGet_cons_ne (cache : Yalebook.CacheMap) (k k' : Yalebook.CacheKey)
    (v : Yalebook.Canvas) (hne : k' ≠ k) :
    Yalebook.cacheGet ((k', v) :: cache) k = Yalebook.cacheGet cache k := by
  unfold Yalebook.cacheGet
  rw [List.find?_cons_of_neg]
  simp [hne]

/-- `preRenderPages` produces one artifact per requested page, whatever the
decoder does. -/
theorem preRenderPages_length (decode : ℕ → Option (ℚ × ℚ)) (w h : ℚ)
    (l : List ℕ) : ∀ cache : Yalebook.CacheMap,
    (Yalebook.preRenderPages decode w h l cache).1.length = l.length := by
  induction l with
  | nil => intro cache; rfl
  | cons p ps ih => intro cache; simp [Yalebook.preRenderPages, ih]

/-- C3: with the engine resting on spread 1 (pages 2-3, current page-flip
index 1) the source's preview formula `currentIndex * 2 + 3` agrees with the
pairing rule, but from spread 2 (pages 4-5, current page-flip index 3) it
computes page 9 while the right-hand page of the next spread (pages 6-7) is 7:
the "page underneath" preview exposes the wrong page for every spread past
the first, exactly as the source's own "Approximation" comment concedes. -/
theorem c3_preview_page_eval :
    Yalebook.nextRightPageNum (Yalebook.spreadLeftFlipIndex 1) =
      Yalebook.rightPageOfSpread 2 ∧
    Yalebook.spreadLeftFlipIndex 2 = 3 ∧
    Yalebook.nextRightPageNum 3 = 9 ∧
    Yalebook.rightPageOfSpread 3 = 7 := by
  decide

/-- C4 counterexample: a fragment `#page=-5` seeds `currentPage = -5`
(`parseInt` returns −5, which is truthy, so the `|| 1` fallback does not fire
and no clamping exists), an index outside `[1, pageCount]` for the 10-page
demo document. -/
theorem c4_counterexample :
    (Yalebook.checkUrlForPdf (-5) Yalebook.demoState).currentPage = -5 ∧
    ¬ (1 ≤ (Yalebook.checkUrlForPdf (-5) Yalebook.demoState).currentPage ∧
       (Yalebook.checkUrlForPdf (-5) Yalebook.demoState).currentPage ≤
         (Yalebook.demoState.totalPages : Int)) := by
  decide

/-- C4 amended: the fragment seeds the initial page index with the parsed
value itself — `1` only when the payload parses to `0` or fails to parse —
with no clamping; an in-range payload therefore yields exactly that in-range
index, while an out-of-range payload yields an out-of-range index (see the
counterexample). -/
theorem c4_amended (n : Int) (s : Yalebook.AppState) (h1 : 1 ≤ n)
    (h2 : n ≤ (s.totalPages : Int)) :
    (Yalebook.checkUrlForPdf n s).currentPage = n ∧
    1 ≤ (Yalebook.checkUrlForPdf n s).currentPage ∧
    (Yalebook.checkUrlForPdf n s).currentPage ≤ (s.totalPages : Int) := by
  have hn : n ≠ 0 := by omega
  simp [Yalebook.checkUrlForPdf, Yalebook.seedFromFragment, hn, h1, h2]

/-- Witness for `c4_amended` at fragment payload 3 on the 10-page demo. -/
theorem c4_amended_witness :
    ((1 : Int) ≤ 3 ∧ (3 : Int) ≤ (Yalebook.demoState.totalPages : Int)) ∧
    ((Yalebook.checkUrlForPdf 3 Yalebook.demoState).currentPage = 3 ∧
     1 ≤ (Yalebook.checkUrlForPdf 3 Yalebook.demoState).currentPage ∧
     (Yalebook.checkUrlForPdf 3 Yalebook.demoState).currentPage ≤
       (Yalebook.demoState.totalPages : Int)) :=
  ⟨⟨by decide, by decide⟩,
   c4_amended 3 Yalebook.demoState (by decide) (by decide)⟩

/-- C5: for `n` outside `[1, pageCount]`, `goToPage(n)` is a silent no-op:
no flip is issued (`flipsIssued` is part of the state) and the state after the
call — current page index included — equals the state before. -/
theorem c5_goToPage_out_of_range (s : Yalebook.AppState) (n : Int)
    (h : n < 1 ∨ (s.totalPages : Int) < n) :
    Yalebook.goToPage s n = s := by
  unfold Yalebook.goToPage
  split
  · rename_i hcond
    simp only [Bool.and_eq_true, decide_eq_true_eq] at hcond
    obtain ⟨⟨-, h1⟩, h2⟩ := hcond
    omega
  · rfl

/-- Witness for `c5_goToPage_out_of_range` at `n = 0`. -/
theorem c5_witness :
    ((0 : Int) < 1 ∨ (Yalebook.demoState.totalPages : Int) < 0) ∧
    Yalebook.goToPage Yalebook.demoState 0 = Yalebook.demoState :=
  ⟨Or.inl (by decide),
   c5_goToPage_out_of_range Yalebook.demoState 0 (Or.inl (by decide))⟩

/-- C6: `checkMobileMode` re-establishes the invariant
(mobile ⇒ single-page mode) for every viewport width and prior state, and
`toggleViewMode` invoked while mobile in single-page mode changes nothing
except emitting exactly one toast notification. -/
theorem c6_mobile_invariant (w vw vh ar : ℚ) (s t : Yalebook.AppState) :
    ((Yalebook.checkMobileMode w s).1.isMobile = true →
       (Yalebook.checkMobileMode w s).1.isDoublePageMode = false) ∧
    (t.isMobile = true → t.isDoublePageMode = false →
       Yalebook.toggleViewMode vw vh ar t = { t with toasts := t.toasts + 1 }) := by
  constructor
  · cases hb : (decide (w ≤ Yalebook.MOBILE_BREAKPOINT)) <;>
      cases hd : s.isDoublePageMode <;>
        simp [Yalebook.checkMobileMode, hb, hd]
  · intro hm hd
    simp [Yalebook.toggleViewMode, hm, hd]

/-- Witness for `c6_mobile_invariant`: a mobile single-page session where the
toggle is rejected with a single toast. -/
theorem c6_witness :
    (({ Yalebook.demoState with isMobile := true } : Yalebook.AppState).isMobile
        = true ∧
     ({ Yalebook.demoState with isMobile := true } :
        Yalebook.AppState).isDoublePageMode = false) ∧
    Yalebook.toggleViewMode 1000 800 1
        { Yalebook.demoState with isMobile := true } =
      { ({ Yalebook.demoState with isMobile := true } : Yalebook.AppState) with
          toasts := Yalebook.demoState.toasts + 1 } :=
  ⟨⟨rfl, rfl⟩,
   (c6_mobile_invariant 500 1000 800 1 Yalebook.demoState
      { Yalebook.demoState with isMobile := true }).2 rfl rfl⟩

/-- C7: a second `renderPage` with the identical key `(p, w, h)` (and no
intervening cache clear) is a cache hit: the decoder is not invoked again, the
cache is unchanged, and the returned artifact equals the first call's; a hit
requires the exact key — the same page at different target dimensions still
misses and re-invokes the decoder. -/
theorem c7_render_cache_hit (decode : ℕ → Option (ℚ × ℚ))
    (cache : Yalebook.CacheMap) (p : ℕ) (w h w' h' : ℚ) (nv : ℚ × ℚ)
    (hdec : decode p = some nv) :
    (Yalebook.renderPage decode
        (Yalebook.renderPage decode cache p w h).2.1 p w h).1 =
      (Yalebook.renderPage decode cache p w h).1 ∧
    (Yalebook.renderPage decode
        (Yalebook.renderPage decode cache p w h).2.1 p w h).2.2 = false ∧
    (Yalebook.renderPage decode
        (Yalebook.renderPage decode cache p w h).2.1 p w h).2.1 =
      (Yalebook.renderPage decode cache p w h).2.1 ∧
    (Yalebook.cacheGet cache (p, w', h') = none → (w', h') ≠ (w, h) →
      (Yalebook.renderPage decode
          (Yalebook.renderPage decode cache p w h).2.1 p w' h').2.2 = true) := by
  cases hc : Yalebook.cacheGet cache (p, w, h) with
  | some c =>
      refine ⟨?_, ?_, ?_, ?_⟩
      · simp [Yalebook.renderPage, hc]
      · simp [Yalebook.renderPage, hc]
      · simp [Yalebook.renderPage, hc]
      · intro hmiss hne
        simp [Yalebook.renderPage, hc, hmiss, hdec]
  | none =>
      have hhit := cacheGet_cons_self cache (p, w, h)
      refine ⟨?_, ?_, ?_, ?_⟩
      · simp [Yalebook.renderPage, hc, hdec, hhit]
      · simp [Yalebook.renderPage, hc, hdec, hhit]
      · simp [Yalebook.renderPage, hc, hdec, hhit]
      · intro hmiss hne
        have hkne : ((p, w, h) : Yalebook.CacheKey) ≠ (p, w', h') := by
          simp only [ne_eq, Prod.mk.injEq]
          intro hcontra
          exact hne (by simp [hcontra.2.1, hcontra.2.2])
        simp only [Yalebook.renderPage, hc, hdec]
        rw [cacheGet_cons_ne _ _ _ _ hkne, hmiss]

/-- Witness for `c7_render_cache_hit`: page 1 at 100×140 with a decoder whose
native viewport is 25×35; the mismatched key 120×140 still misses. -/
theorem c7_witness :
    ((fun _ : ℕ => some ((25 : ℚ), (35 : ℚ))) 1 = some (25, 35)) ∧
    ((Yalebook.renderPage (fun _ => some ((25 : ℚ), (35 : ℚ)))
        (Yalebook.renderPage (fun _ => some ((25 : ℚ), (35 : ℚ))) [] 1 100 140).2.1
        1 100 140).1 =
      (Yalebook.renderPage (fun _ => some ((25 : ℚ), (35 : ℚ))) [] 1 100 140).1 ∧
     (Yalebook.renderPage (fun _ => some ((25 : ℚ), (35 : ℚ)))
        (Yalebook.renderPage (fun _ => some ((25 : ℚ), (35 : ℚ))) [] 1 100 140).2.1
        1 100 140).2.2 = false ∧
     (Yalebook.renderPage (fun _ => some ((25 : ℚ), (35 : ℚ)))
        (Yalebook.renderPage (fun _ => some ((25 : ℚ), (35 : ℚ))) [] 1 100 140).2.1
        1 100 140).2.1 =
      (Yalebook.renderPage (fun _ => some ((25 : ℚ), (35 : ℚ))) [] 1 100 140).2.1 ∧
     (Yalebook.cacheGet [] (1, 120, 140) = none → ((120 : ℚ), (140 : ℚ)) ≠ (100, 140) →
      (Yalebook.renderPage (fun _ => some ((25 : ℚ), (35 : ℚ)))
          (Yalebook.renderPage (fun _ => some ((25 : ℚ), (35 : ℚ))) [] 1 100 140).2.1
          1 120 140).2.2 = true)) :=
  ⟨rfl, c7_render_cache_hit (fun _ => some ((25 : ℚ), (35 : ℚ))) [] 1 100 140
      120 140 (25, 35) rfl⟩

/-- C9: per-page failures are isolated — a failed rasterization yields the
placeholder artifact at exactly the target dimensions instead of an exception,
a failed text extraction stores an empty text blob for that page, and both
batch operations visit every page from 1 to `total`: `extractAllPageTexts`
produces an entry for each page and `preRenderAllPages` an artifact for each
page, regardless of individual failures. -/
theorem c9_per_page_failure_isolation (decode : ℕ → Option (ℚ × ℚ))
    (getText : ℕ → Option String) (cache : Yalebook.CacheMap)
    (total p : ℕ) (w h : ℚ) (hp1 : 1 ≤ p) (hp2 : p ≤ total) :
    (decode p = none → Yalebook.cacheGet cache (p, w, h) = none →
       (Yalebook.renderPage decode cache p w h).1 =
           Yalebook.createErrorPage w h ∧
       (Yalebook.createErrorPage w h).width = w ∧
       (Yalebook.createErrorPage w h).height = h ∧
       (Yalebook.createErrorPage w h).errorLabel = true) ∧
    (∃ t, (p, t) ∈ Yalebook.extractAllPageTexts getText total ∧
       (getText p = none → t = "")) ∧
    (Yalebook.preRenderAllPages decode cache w h total).1.length = total := by
  refine ⟨?_, ?_, ?_⟩
  · intro hdec hmiss
    refine ⟨?_, rfl, rfl, rfl⟩
    simp [Yalebook.renderPage, hmiss, hdec]
  · obtain ⟨j, rfl⟩ : ∃ j, p = j + 1 := ⟨p - 1, by omega⟩
    cases hg : getText (j + 1) with
    | some t =>
        refine ⟨t.toLower, List.mem_map.mpr ⟨j, List.mem_range.mpr (by omega), ?_⟩, ?_⟩
        · simp [hg]
        · simp [hg]
    | none =>
        refine ⟨"", List.mem_map.mpr ⟨j, List.mem_range.mpr (by omega), ?_⟩, ?_⟩
        · simp [hg]
        · intro _; rfl
  · simp [Yalebook.preRenderAllPages, preRenderPages_length]

/-- Witness for `c9_per_page_failure_isolation`: a 3-page document whose
decoder and text extractor fail on every page, observed at page 2. -/
theorem c9_witness :
    ((1 : ℕ) ≤ 2 ∧ (2 : ℕ) ≤ 3) ∧
    (((fun _ : ℕ => (none : Option (ℚ × ℚ))) 2 = none →
        Yalebook.cacheGet [] (2, 100, 140) = none →
        (Yalebook.renderPage (fun _ => none) [] 2 100 140).1 =
            Yalebook.createErrorPage 100 140 ∧
        (Yalebook.createErrorPage 100 140).width = 100 ∧
        (Yalebook.createErrorPage 100 140).height = 140 ∧
        (Yalebook.createErrorPage 100 140).errorLabel = true) ∧
     (∃ t, (2, t) ∈ Yalebook.extractAllPageTexts (fun _ => none) 3 ∧
        ((fun _ : ℕ => (none : Option String)) 2 = none → t = "")) ∧
     (Yalebook.preRenderAllPages (fun _ => none) [] 100 140 3).1.length = 3) :=
  ⟨⟨by decide, by decide⟩,
   c9_per_page_failure_isolation (fun _ => none) (fun _ => none) [] 3 2 100 140
     (by decide) (by decide)⟩

/-- C10: when rasterization fails on a cache miss, the placeholder is returned
but *not* written to the cache — the cache is unchanged, the key still misses,
and a subsequent `renderPage` with the same `(p, w, h)` invokes the decoder
again. -/
theorem c10_placeholder_not_cached (decode : ℕ → Option (ℚ × ℚ))
    (cache : Yalebook.CacheMap) (p : ℕ) (w h : ℚ)
    (hdec : decode p = none) (hmiss : Yalebook.cacheGet cache (p, w, h) = none) :
    (Yalebook.renderPage decode cache p w h).2.1 = cache ∧
    (Yalebook.renderPage decode cache p w h).1 = Yalebook.createErrorPage w h ∧
    (Yalebook.renderPage decode cache p w h).2.2 = true ∧
    Yalebook.cacheGet (Yalebook.renderPage decode cache p w h).2.1 (p, w, h)
        = none ∧
    (Yalebook.renderPage decode
        (Yalebook.renderPage decode cache p w h).2.1 p w h).2.2 = true := by
  refine ⟨?_, ?_, ?_, ?_, ?_⟩ <;> simp [Yalebook.renderPage, hmiss, hdec]

/-- Witness for `c10_placeholder_not_cached` at page 1, 100×140, with an
always-failing decoder and an empty cache. -/
theorem c10_witness :
    ((fun _ : ℕ => (none : Option (ℚ × ℚ))) 1 = none ∧
     Yalebook.cacheGet [] (1, 100, 140) = none) ∧
    ((Yalebook.renderPage (fun _ => none) [] 1 100 140).2.1 = [] ∧
     (Yalebook.renderPage (fun _ => none) [] 1 100 140).1 =
         Yalebook.createErrorPage 100 140 ∧
     (Yalebook.renderPage (fun _ => none) [] 1 100 140).2.2 = true ∧
     Yalebook.cacheGet (Yalebook.renderPage (fun _ => none) [] 1 100 140).2.1
         (1, 100, 140) = none ∧
     (Yalebook.renderPage (fun _ => none)
         (Yalebook.renderPage (fun _ => none) [] 1 100 140).2.1 1 100 140).2.2
       = true) :=
  ⟨⟨rfl, rfl⟩,
   c10_placeholder_not_cached (fun _ => none) [] 1 100 140 rfl rfl⟩

/-- `checkMobileMode` touches only the device class and the layout mode. -/
theorem checkMobileMode_fields (iw : ℚ) (s : Yalebook.AppState) :
    (Yalebook.checkMobileMode iw s).1.pageCache = s.pageCache ∧
    (Yalebook.checkMobileMode iw s).1.hasPdfDoc = s.hasPdfDoc ∧
    (Yalebook.checkMobileMode iw s).1.hasPageFlip = s.hasPageFlip := by
  cases hb : (decide (iw ≤ Yalebook.MOBILE_BREAKPOINT)) <;>
    cases hd : s.isDoublePageMode <;>
      simp [Yalebook.checkMobileMode, hb, hd]

/-- C2 counterexample: in the 10-page desktop demo session (base page width
400, one cached artifact), a resize to a 1000 px viewer changes the expected
page width to 960 — more than 50 px away from the base width — yet
`handleResize` only reinitializes the flipbook: the render cache is NOT
cleared and stays non-empty. -/
theorem c2_counterexample :
    |((1000 : ℚ) - 40) - (Yalebook.demoState.basePageWidth : ℚ)| > 50 ∧
    (Yalebook.handleResize 1000 1000 800 1 Yalebook.demoState).pageCache =
      Yalebook.demoState.pageCache ∧
    Yalebook.demoState.pageCache ≠ [] := by
  refine ⟨by norm_num [Yalebook.demoState], ?_, by simp [Yalebook.demoState]⟩
  norm_num [Yalebook.handleResize, Yalebook.checkMobileMode,
    Yalebook.MOBILE_BREAKPOINT, Yalebook.demoState, Yalebook.initFlipbook,
    Yalebook.planPageDims]

/-- C2 amended: the render cache is cleared exactly by (i) a layout-mode
toggle with a document loaded (and not rejected on mobile), (ii) a resize that
changes the mobile device class, and (iii) the explicit new-document reset
`openNewPdf`; a resize that merely moves the target width more than 50 px
from the base width reinitializes without clearing (cache unchanged whenever
the device class is unchanged), and rendering only ever adds entries. -/
theorem c2_amended (vw vh ar iw : ℚ) (s : Yalebook.AppState)
    (decode : ℕ → Option (ℚ × ℚ)) (cache : Yalebook.CacheMap)
    (p : ℕ) (w h : ℚ) (k : Yalebook.CacheKey) (v : Yalebook.Canvas) :
    (s.hasPdfDoc = true → (s.isMobile = true → s.isDoublePageMode = true) →
       (Yalebook.toggleViewMode vw vh ar s).pageCache = []) ∧
    ((Yalebook.checkMobileMode iw s).2 = false →
       (Yalebook.handleResize iw vw vh ar s).pageCache = s.pageCache) ∧
    ((Yalebook.checkMobileMode iw s).2 = true → s.hasPdfDoc = true →
       s.hasPageFlip = true →
       (Yalebook.handleResize iw vw vh ar s).pageCache = []) ∧
    (Yalebook.openNewPdf s).pageCache = [] ∧
    (Yalebook.cacheGet cache k = some v →
       Yalebook.cacheGet (Yalebook.renderPage decode cache p w h).2.1 k
         = some v) := by
  obtain ⟨hcc, hdoc', hflip'⟩ := checkMobileMode_fields iw s
  refine ⟨?_, ?_, ?_, rfl, ?_⟩
  · intro hdoc hmd
    have hcond : (s.isMobile && !s.isDoublePageMode) = false := by
      cases hm : s.isMobile
      · rfl
      · simp [hmd hm]
    simp [Yalebook.toggleViewMode, hcond, hdoc, Yalebook.initFlipbook]
  · intro hm2
    simp only [Yalebook.handleResize, hm2, Bool.false_eq_true, if_false]
    split_ifs <;> simp [Yalebook.initFlipbook, hcc]
  · intro hm2 hdoc hflip
    simp only [Yalebook.handleResize, hm2, if_true]
    simp [hdoc', hdoc, hflip', hflip, Yalebook.initFlipbook]
  · intro hget
    cases hk2 : Yalebook.cacheGet cache (p, w, h) with
    | some c =>
        simpa [Yalebook.renderPage, hk2] using hget
    | none =>
        cases hd : decode p with
        | none => simpa [Yalebook.renderPage, hk2, hd] using hget
        | some nv =>
            have hne : ((p, w, h) : Yalebook.CacheKey) ≠ k := by
              intro he
              rw [he, hget] at hk2
              cases hk2
            simp only [Yalebook.renderPage, hk2, hd]
            rw [cacheGet_cons_ne _ _ _ _ hne]
            exact hget

/-- Witness for `c2_amended` on the demo session: a toggle clears, a
class-preserving resize keeps the cache, a breakpoint-crossing resize clears,
`openNewPdf` clears, and rendering a fresh page preserves the existing
entry. -/
theorem c2_amended_witness :
    (Yalebook.demoState.hasPdfDoc = true ∧
     (Yalebook.checkMobileMode 1000 Yalebook.demoState).2 = false ∧
     (Yalebook.checkMobileMode 500 Yalebook.demoState).2 = true ∧
     Yalebook.demoState.hasPageFlip = true ∧
     Yalebook.cacheGet [((1, 100, 140), Yalebook.demoCanvas)] (1, 100, 140) =
       some Yalebook.demoCanvas) ∧
    ((Yalebook.toggleViewMode 1000 800 1 Yalebook.demoState).pageCache = [] ∧
     (Yalebook.handleResize 1000 1000 800 1 Yalebook.demoState).pageCache =
       Yalebook.demoState.pageCache ∧
     (Yalebook.handleResize 500 1000 800 1 Yalebook.demoState).pageCache = [] ∧
     (Yalebook.openNewPdf Yalebook.demoState).pageCache = [] ∧
     Yalebook.cacheGet
       (Yalebook.renderPage (fun _ => none)
          [((1, 100, 140), Yalebook.demoCanvas)] 2 100 140).2.1 (1, 100, 140)
       = some Yalebook.demoCanvas) :=
  ⟨⟨rfl, by decide, by decide, rfl, by decide⟩,
   ⟨(c2_amended 1000 800 1 1000 Yalebook.demoState (fun _ => none)
        [((1, 100, 140), Yalebook.demoCanvas)] 2 100 140 (1, 100, 140)
        Yalebook.demoCanvas).1 rfl (by decide),
    (c2_amended 1000 800 1 1000 Yalebook.demoState (fun _ => none)
        [((1, 100, 140), Yalebook.demoCanvas)] 2 100 140 (1, 100, 140)
        Yalebook.demoCanvas).2.1 (by decide),
    (c2_amended 1000 800 1 500 Yalebook.demoState (fun _ => none)
        [((1, 100, 140), Yalebook.demoCanvas)] 2 100 140 (1, 100, 140)
        Yalebook.demoCanvas).2.2.1 (by decide) rfl rfl,
    (c2_amended 1000 800 1 500 Yalebook.demoState (fun _ => none)
        [((1, 100, 140), Yalebook.demoCanvas)] 2 100 140 (1, 100, 140)
        Yalebook.demoCanvas).2.2.2.1,
    (c2_amended 1000 800 1 1000 Yalebook.demoState (fun _ => none)
        [((1, 100, 140), Yalebook.demoCanvas)] 2 100 140 (1, 100, 140)
        Yalebook.demoCanvas).2.2.2.2 (by decide)⟩⟩

/-- An in-range jump: `goToPage` with the engine present and a valid page
number flips once and lands on that page. -/
theorem goToPage_jump (s : Yalebook.AppState) (p : ℕ)
    (hflip : s.hasPageFlip = true) (hp1 : 1 ≤ p) (hp2 : p ≤ s.totalPages) :
    Yalebook.goToPage s (p : Int) =
      { s with flipsIssued := s.flipsIssued + 1, currentPage := (p : Int) } := by
  have hb : (s.hasPageFlip && decide (1 ≤ (p : Int)) &&
      decide ((p : Int) ≤ (s.totalPages : Int))) = true := by
    simp only [Bool.and_eq_true, decide_eq_true_eq]
    exact ⟨⟨hflip, by exact_mod_cast hp1⟩, by exact_mod_cast hp2⟩
  unfold Yalebook.goToPage
  rw [if_pos hb]

/-- C8: on a non-empty result list of length `L` with the cursor in
`[0, L-1]`, `goToNextSearchResult` moves the cursor to `(cursor + 1) mod L`
and `goToPrevSearchResult` to `(cursor - 1 + L) mod L` (JavaScript `%` agrees
with the mathematical `mod` on these nonnegative operands), and each jumps to
the result page at the new cursor. -/
theorem c8_search_cyclic_navigation (s : Yalebook.AppState)
    (hflip : s.hasPageFlip = true)
    (hlen : 0 < s.searchResults.length)
    (hc0 : 0 ≤ s.currentSearchIndex)
    (hcL : s.currentSearchIndex < (s.searchResults.length : Int))
    (hpages : ∀ p ∈ s.searchResults, 1 ≤ p ∧ p ≤ s.totalPages) :
    (Yalebook.goToNextSearchResult s).currentSearchIndex =
      (s.currentSearchIndex + 1) % (s.searchResults.length : Int) ∧
    (Yalebook.goToNextSearchResult s).currentPage =
      (s.searchResults.getD
        ((s.currentSearchIndex + 1) %
          (s.searchResults.length : Int)).toNat 0 : Int) ∧
    (Yalebook.goToPrevSearchResult s).currentSearchIndex =
      (s.currentSearchIndex - 1 + (s.searchResults.length : Int)) %
        (s.searchResults.length : Int) ∧
    (Yalebook.goToPrevSearchResult s).currentPage =
      (s.searchResults.getD
        ((s.currentSearchIndex - 1 + (s.searchResults.length : Int)) %
          (s.searchResults.length : Int)).toNat 0 : Int) := by
  have hLpos : (0 : Int) < (s.searchResults.length : Int) := by exact_mod_cast hlen
  have hLne : (s.searchResults.length : Int) ≠ 0 := by omega
  have hnz : ¬ (s.searchResults.length = 0) := by omega
  have ha : (0 : Int) ≤ s.currentSearchIndex + 1 := by omega
  have htm : Int.tmod (s.currentSearchIndex + 1) (s.searchResults.length : Int)
      = (s.currentSearchIndex + 1) % (s.searchResults.length : Int) :=
    Int.tmod_eq_emod ha (le_of_lt hLpos)
  have hm0 : 0 ≤ (s.currentSearchIndex + 1) % (s.searchResults.length : Int) :=
    Int.emod_nonneg _ hLne
  have hmL : (s.currentSearchIndex + 1) % (s.searchResults.length : Int)
      < (s.searchResults.length : Int) := Int.emod_lt_of_pos _ hLpos
  have hidx : ((s.currentSearchIndex + 1) %
      (s.searchResults.length : Int)).toNat < s.searchResults.length := by
    omega
  have hget := List.getElem?_eq_getElem hidx
  obtain ⟨hp1, hp2⟩ := hpages _ (List.get_mem s.searchResults
    ((s.currentSearchIndex + 1) % (s.searchResults.length : Int)).toNat hidx)
  have hnextEq : Yalebook.goToNextSearchResult s =
      Yalebook.goToPage
        { s with currentSearchIndex :=
            (s.currentSearchIndex + 1) % (s.searchResults.length : Int) }
        ((s.searchResults.get ⟨((s.currentSearchIndex + 1) %
            (s.searchResults.length : Int)).toNat, hidx⟩ : ℕ) : Int) := by
    simp only [Yalebook.goToNextSearchResult, hnz, if_false]
    rw [htm, hget]
    rfl
  have ha2 : (0 : Int) ≤ s.currentSearchIndex - 1 + (s.searchResults.length : Int) := by
    omega
  have htm2 : Int.tmod (s.currentSearchIndex - 1 + (s.searchResults.length : Int))
      (s.searchResults.length : Int)
      = (s.currentSearchIndex - 1 + (s.searchResults.length : Int)) %
          (s.searchResults.length : Int) :=
    Int.tmod_eq_emod ha2 (le_of_lt hLpos)
  have hm02 : 0 ≤ (s.currentSearchIndex - 1 + (s.searchResults.length : Int)) %
      (s.searchResults.length : Int) := Int.emod_nonneg _ hLne
  have hmL2 : (s.currentSearchIndex - 1 + (s.searchResults.length : Int)) %
      (s.searchResults.length : Int) < (s.searchResults.length : Int) :=
    Int.emod_lt_of_pos _ hLpos
  have hidx2 : ((s.currentSearchIndex - 1 + (s.searchResults.length : Int)) %
      (s.searchResults.length : Int)).toNat < s.searchResults.length := by
    omega
  have hget2 := List.getElem?_eq_getElem hidx2
  obtain ⟨hq1, hq2⟩ := hpages _ (List.get_mem s.searchResults
    ((s.currentSearchIndex - 1 + (s.searchResults.length : Int)) %
      (s.searchResults.length : Int)).toNat hidx2)
  have hprevEq : Yalebook.goToPrevSearchResult s =
      Yalebook.goToPage
        { s with currentSearchIndex :=
            (s.currentSearchIndex - 1 + (s.searchResults.length : Int)) %
              (s.searchResults.length : Int) }
        ((s.searchResults.get ⟨((s.currentSearchIndex - 1 +
            (s.searchResults.length : Int)) %
            (s.searchResults.length : Int)).toNat, hidx2⟩ : ℕ) : Int) := by
    simp only [Yalebook.goToPrevSearchResult, hnz, if_false]
    rw [htm2, hget2]
    rfl
  refine ⟨?_, ?_, ?_, ?_⟩
  · rw [hnextEq, goToPage_jump
      { s with currentSearchIndex :=
          (s.currentSearchIndex + 1) % (s.searchResults.length : Int) }
      _ hflip hp1 hp2]
  · rw [hnextEq, goToPage_jump
      { s with currentSearchIndex :=
          (s.currentSearchIndex + 1) % (s.searchResults.length : Int) }
      _ hflip hp1 hp2]
    simp only [List.getD_eq_getElem?_getD, List.get_eq_getElem]
    rw [hget]
    rfl
  · rw [hprevEq, goToPage_jump
      { s with currentSearchIndex :=
          (s.currentSearchIndex - 1 + (s.searchResults.length : Int)) %
            (s.searchResults.length : Int) }
      _ hflip hq1 hq2]
  · rw [hprevEq, goToPage_jump
      { s with currentSearchIndex :=
          (s.currentSearchIndex - 1 + (s.searchResults.length : Int)) %
            (s.searchResults.length : Int) }
      _ hflip hq1 hq2]
    simp only [List.getD_eq_getElem?_getD, List.get_eq_getElem]
    rw [hget2]
    rfl

/-- Witness for `c8_search_cyclic_navigation` on the demo search for pages
{3, 7, 9} with cursor 0: the first `next()` lands on page 7, matching the
7 → 9 → 3 cycle. -/
theorem c8_witness :
    (Yalebook.demoSearchState.hasPageFlip = true ∧
     0 < Yalebook.demoSearchState.searchResults.length ∧
     0 ≤ Yalebook.demoSearchState.currentSearchIndex ∧
     Yalebook.demoSearchState.currentSearchIndex <
       (Yalebook.demoSearchState.searchResults.length : Int) ∧
     (∀ p ∈ Yalebook.demoSearchState.searchResults,
        1 ≤ p ∧ p ≤ Yalebook.demoSearchState.totalPages)) ∧
    (Yalebook.goToNextSearchResult Yalebook.demoSearchState).currentSearchIndex
      = 1 ∧
    (Yalebook.goToNextSearchResult Yalebook.demoSearchState).currentPage = 7 := by
  have hh := c8_search_cyclic_navigation Yalebook.demoSearchState rfl
    (by decide) (by decide) (by decide) (by decide)
  refine ⟨⟨rfl, by decide, by decide, by decide, by decide⟩, ?_, ?_⟩
  · rw [hh.1]; decide
  · rw [hh.2.1]; decide
